import Mathlib

/-!
Verification of the orion-AI filing pipeline.

Shallow embedding, in Lean 4, of the parts of the orion-AI repository that
the specification's claims are about:

* `src/src/graph_builder.py` — `GraphBuilder` (CIK formatting, person /
  company / event node upserts, people and event extraction,
  `process_filing`, `process_filings`);
* `src/src/ingestion/legacy/filing_downloader.py` — `RateLimiter`,
  `get_submission_json`, `download_filing`, `process_fpi_entry`;
* `src/services/worker/worker.py` — job claim / finalization renames;
* `src/services/coordinator/coordinator.py` — `create_jobs`.

Python strings are modelled as Lean `String`s (the filings are ASCII;
`lower`/`isupper`/`isalpha` are modelled on ASCII).  Python's float literal
`0.3` in `_is_valid_person_name` is modelled as the rational `3/10`.
Wall-clock reads and `time.sleep` are modelled as rationals supplied by the
environment, constrained by an explicit sleep contract.  The Neo4j driver
is modelled as an always-succeeding sink that records each write; regex
match results for the people-extraction patterns are supplied as oracle
capture lists (one list per pattern family, in the order the source visits
them), since the claims quantify over the guards applied to the captures,
not over the regex engine itself.
-/

namespace Orion

/-! ## Python string primitives

All definitions below recurse structurally over `List Char`, so that every
theorem about a concrete string can be settled by kernel reduction. -/

/-- Python `str.lower()` restricted to ASCII, which is all the source ever
feeds it. -/
def pyLower (s : String) : String :=
  String.mk (s.data.map Char.toLower)

/-- Whether `needle` occurs as a contiguous run inside `hay`. -/
def listInfix (needle : List Char) : List Char → Bool
  | [] => needle.isPrefixOf []
  | c :: rest => needle.isPrefixOf (c :: rest) || listInfix needle rest

/-- Python `needle in hay` substring test. -/
def pyContains (hay needle : String) : Bool :=
  listInfix needle.data hay.data

/-- Python `str.strip()`: drop leading and trailing whitespace. -/
def pyStrip (s : String) : String :=
  String.mk
    (((s.data.dropWhile Char.isWhitespace).reverse.dropWhile
        Char.isWhitespace).reverse)

/-- Python single-character `str.replace(a, b)`. -/
def pyReplaceChar (s : String) (a b : Char) : String :=
  String.mk (s.data.map (fun c => if c = a then b else c))

/-- Accumulator pass for `pySplitWs`. -/
def splitWsGo : List Char → List Char → List String
  | [], acc => if acc.isEmpty then [] else [String.mk acc.reverse]
  | c :: rest, acc =>
      if c.isWhitespace then
        if acc.isEmpty then splitWsGo rest []
        else String.mk acc.reverse :: splitWsGo rest []
      else splitWsGo rest (c :: acc)

/-- Python `str.split()` with no separator: split on whitespace runs,
dropping empty tokens. -/
def pySplitWs (s : String) : List String :=
  splitWsGo s.data []

/-- Python `str.zfill(width)`: left-pad with `'0'` up to `width`,
keeping a leading sign character in front of the padding. -/
def pyZfill (s : String) (width : Nat) : String :=
  if s.length ≥ width then s
  else
    match s.data with
    | c :: rest =>
        if c = '+' ∨ c = '-' then
          String.mk (c :: List.replicate (width - s.length) '0' ++ rest)
        else
          String.mk (List.replicate (width - s.length) '0' ++ s.data)
    | [] => String.mk (List.replicate width '0')

/-- Python slicing `s[:n]` for a non-negative `n`. -/
def pyTakeStr (s : String) (n : Nat) : String :=
  String.mk (s.data.take n)

/-- Whether a character list contains a run of at least three decimal
digits — Python's `re.search(r"\d{3,}", ·)`. -/
def hasDigitRun3 : List Char → Bool
  | c₁ :: c₂ :: c₃ :: rest =>
      (c₁.isDigit && c₂.isDigit && c₃.isDigit) || hasDigitRun3 (c₂ :: c₃ :: rest)
  | _ => false

/-! ## `graph_builder.py`: CIK formatting and node identifiers -/

/-- Embeds `GraphBuilder.format_cik` (`graph_builder.py:37-39`): zero-pad the CIK
to 10 digits. -/
def format_cik (cik : String) : String :=
  pyZfill cik 10

/-- The person id computed inside `create_person_node`
(`graph_builder.py:436-437`): the CIK is interpolated as received, with no
`format_cik` call. -/
def personNodeId (name companyCik : String) : String :=
  "person_" ++ pyReplaceChar (pyLower (pyStrip name)) ' ' '_' ++ "_" ++ companyCik

/-- The person id computed inside `create_works_at_relationship`
(`graph_builder.py:470-471`): here the CIK *is* passed through
`format_cik` first, and the name is used as passed (not stripped). -/
def worksAtPersonId (personName companyCik : String) : String :=
  "person_" ++ pyReplaceChar (pyLower personName) ' ' '_' ++ "_" ++
    format_cik companyCik

/-! ## `graph_builder.py`: name and title validation -/

/-- The `false_positives` stop list of `_is_valid_person_name`
(`graph_builder.py:152-160`). -/
def personFalsePositives : List String :=
  ["authorised signatory", "signatory", "company", "corporation",
   "incorporated", "limited", "plc", "ltd", "inc", "corp",
   "bank account", "account openings", "adult bank",
   "branded adult", "000s", "000", "million", "thousand",
   "united states", "securities", "exchange", "commission",
   "form 6-k", "report of", "foreign private", "issuer",
   "pursuant to", "section 13a", "securities exchange act"]

/-- The per-word checks in the loop of `_is_valid_person_name`
(`graph_builder.py:173-182`): leading uppercase, at least two letters, and
non-letter characters at most 30% of the word (`len(word) * 0.3` — the
float literal `0.3` is modelled as the rational `3/10`). -/
def validPersonWord (w : String) : Bool :=
  match w.data with
  | [] => false
  | c :: _ =>
      c.isUpper &&
      decide ((w.data.filter Char.isAlpha).length ≥ 2) &&
      !decide (10 * (w.data.filter (fun d => !d.isAlpha)).length >
                3 * w.data.length)

/-- Embeds `GraphBuilder._is_valid_person_name` (`graph_builder.py:146-188`). -/
def is_valid_person_name (name : String) : Bool :=
  if name.length < 3 then false
  else if personFalsePositives.any (fun fp => pyContains (pyLower name) fp) then
    false
  else
    let words := pySplitWs name
    if words.length < 2 || words.length > 4 then false
    else if !words.all validPersonWord then false
    else if hasDigitRun3 name.data then false
    else true

/-- The `false_positives` stop list of `_is_valid_title`
(`graph_builder.py:198-205`). -/
def titleFalsePositives : List String :=
  ["000s", "000", "million", "thousand", "hundred",
   "percent", "%", "usd", "eur", "gbp", "cad",
   "q1", "q2", "q3", "q4", "quarter", "year",
   "january", "february", "march", "april", "may",
   "june", "july", "august", "september", "october",
   "november", "december"]

/-- The `title_keywords` list of `_is_valid_title`
(`graph_builder.py:216-221`). -/
def titleKeywords : List String :=
  ["director", "officer", "executive", "president", "vice",
   "chief", "manager", "secretary", "treasurer", "chairman",
   "ceo", "cfo", "coo", "cto", "cmo", "head", "lead",
   "senior", "junior", "assistant", "deputy", "general"]

/-- Embeds `GraphBuilder._is_valid_title` (`graph_builder.py:190-229`).
`re.search(r"^\d+", title)` is a leading digit; `re.search(r"\d{3,}", ·)`
is a three-digit run. -/
def is_valid_title (title : String) : Bool :=
  if title.length < 3 then false
  else if titleFalsePositives.any (fun fp => pyContains (pyLower title) fp) then
    false
  else if (match title.data with | c :: _ => c.isDigit | [] => false) ||
      hasDigitRun3 title.data then
    false
  else
    let hasKeyword := titleKeywords.any (fun kw => pyContains (pyLower title) kw)
    if title.length < 10 && !hasKeyword then false
    else true

/-- Embeds `GraphBuilder._classify_role` (`graph_builder.py:414-429`). -/
def classify_role (title : String) : String :=
  let t := pyLower title
  if pyContains t "chief executive" || pyContains t "ceo" then "CEO"
  else if pyContains t "director" then "Director"
  else if pyContains t "officer" then "Officer"
  else if pyContains t "signatory" then "Signatory"
  else if pyContains t "contact" || pyContains t "relations" then "Contact"
  else "Executive"

/-! ## `graph_builder.py`: people extraction

`_extract_people_from_filing_patterns` (`graph_builder.py:247-412`) runs
five regex pattern families over the filing body and guards every captured
candidate before appending it.  The regex engine is external to the
repository; its match results are modelled as oracle capture lists, one
list per pattern family, holding the captured groups in the order the
nested `for pattern / for match` loops visit them.  The guard, title and
role-classification logic applied to each capture is translated from the
source verbatim. -/

/-- A person record as appended by the extractor: `name`, `title`,
`role_type`. -/
structure Person where
  name : String
  title : String
  role_type : String
  deriving DecidableEq, Repr

/-- Embeds `re.sub(r"\s+", " ", name)` on an already-stripped name: collapse each
whitespace run to a single space. -/
def collapseWs (s : String) : String :=
  String.intercalate " " (pySplitWs s)

/-- Pattern family 1 — signature patterns (`graph_builder.py:259-283`):
strip the capture, collapse whitespace, keep it if the name validates. -/
def processSigCaptures (caps : List String) : List Person :=
  caps.filterMap (fun g1 =>
    let name := pyStrip g1
    if name = "" then none
    else
      let name := collapseWs name
      if is_valid_person_name name then
        some ⟨name, "Authorised Signatory", "Signatory"⟩
      else none)

/-- Pattern family 2, two-group director patterns
(`graph_builder.py:287-311`, `num_groups == 2`): the captured title falls
back to `"Director"` when group 2 is empty, and both the name and the
title must validate. -/
def processDir2Captures (caps : List (String × String)) : List Person :=
  caps.filterMap (fun (g1, g2) =>
    let name := pyStrip g1
    let title := if g2 ≠ "" then pyStrip g2 else "Director"
    if name ≠ "" && is_valid_person_name name && is_valid_title title then
      some ⟨name, title, "Director"⟩
    else none)

/-- Pattern family 2, one-group `Board of Directors` pattern
(`graph_builder.py:291`, `num_groups == 1`): the title is `"Director"` and
only the name is validated. -/
def processDir1Captures (caps : List String) : List Person :=
  caps.filterMap (fun g1 =>
    let name := pyStrip g1
    if name ≠ "" && is_valid_person_name name then
      some ⟨name, "Director", "Director"⟩
    else none)

/-- Pattern family 3 — CEO patterns (`graph_builder.py:316-339`). -/
def processCeoCaptures (caps : List String) : List Person :=
  caps.filterMap (fun g1 =>
    let name := pyStrip g1
    if name ≠ "" && is_valid_person_name name then
      some ⟨name, "Chief Executive Officer", "CEO"⟩
    else none)

/-- Pattern family 4 — officer patterns (`graph_builder.py:342-364`): both
groups are required, and the role is classified from the title. -/
def processOfficerCaptures (caps : List (String × String)) : List Person :=
  caps.filterMap (fun (g1, g2) =>
    let name := pyStrip g1
    let title := pyStrip g2
    if name ≠ "" && title ≠ "" && is_valid_person_name name &&
        is_valid_title title then
      some ⟨name, title, classify_role title⟩
    else none)

/-- Pattern family 5, two-group contact patterns
(`graph_builder.py:367-392`, `num_groups == 2`). -/
def processContact2Captures (caps : List (String × String)) : List Person :=
  caps.filterMap (fun (g1, g2) =>
    let name := pyStrip g1
    let title := if g2 ≠ "" then pyStrip g2 else "Contact"
    if name ≠ "" && is_valid_person_name name && is_valid_title title then
      some ⟨name, title, "Contact"⟩
    else none)

/-- Pattern family 5, one-group `Communications Director` pattern
(`graph_builder.py:370`, `num_groups == 1`). -/
def processContact1Captures (caps : List String) : List Person :=
  caps.filterMap (fun g1 =>
    let name := pyStrip g1
    if name ≠ "" && is_valid_person_name name then
      some ⟨name, "Communications Director", "Contact"⟩
    else none)

/-- Oracle capture lists for the five pattern families, in source order. -/
structure PeopleCaptures where
  sig : List String
  dir2 : List (String × String)
  dir1 : List String
  ceo : List String
  officer : List (String × String)
  contact2 : List (String × String)
  contact1 : List String
  deriving Repr

/-- The final per-filing dedup loop (`graph_builder.py:394-401`): keep the
first occurrence of each case-folded name. -/
def dedupPeople : List Person → List String → List Person
  | [], _ => []
  | p :: rest, seen =>
      if seen.contains (pyLower p.name) then dedupPeople rest seen
      else p :: dedupPeople rest (pyLower p.name :: seen)

/-- The candidate list accumulated across all five pattern families, in
the order the source appends them. -/
def allPeopleCandidates (c : PeopleCaptures) : List Person :=
  processSigCaptures c.sig ++ processDir2Captures c.dir2 ++
    processDir1Captures c.dir1 ++ processCeoCaptures c.ceo ++
    processOfficerCaptures c.officer ++ processContact2Captures c.contact2 ++
    processContact1Captures c.contact1

/-- Embeds `GraphBuilder._extract_people_from_filing_patterns`
(`graph_builder.py:247-412`): early-return the empty list when the body
(`raw_text + html_content`) is empty, otherwise process the pattern
captures and deduplicate.  Timing bookkeeping is not modelled. -/
def extract_people_from_filing_patterns (rawText htmlContent : String)
    (c : PeopleCaptures) : List Person :=
  if rawText ++ htmlContent = "" then []
  else dedupPeople (allPeopleCandidates c) []

/-! ## Validity of every extracted person (claim C9) -/

theorem valid_of_mem_processSig {p : Person} {caps : List String}
    (h : p ∈ processSigCaptures caps) : is_valid_person_name p.name = true := by
  simp only [processSigCaptures, List.mem_filterMap] at h
  obtain ⟨g, -, hg⟩ := h
  split_ifs at hg
  all_goals
    first
      | exact Option.noConfusion hg
      | (obtain rfl := Option.some.inj hg
         try dsimp only at *
         try simp only [Bool.and_eq_true, decide_eq_true_eq] at *
         tauto)


theorem valid_of_mem_processDir2 {p : Person} {caps : List (String × String)}
    (h : p ∈ processDir2Captures caps) : is_valid_person_name p.name = true := by
  simp only [processDir2Captures, List.mem_filterMap] at h
  obtain ⟨g, -, hg⟩ := h
  split_ifs at hg
  all_goals
    first
      | exact Option.noConfusion hg
      | (obtain rfl := Option.some.inj hg
         try dsimp only at *
         try simp only [Bool.and_eq_true, decide_eq_true_eq] at *
         tauto)


theorem valid_of_mem_processDir1 {p : Person} {caps : List String}
    (h : p ∈ processDir1Captures caps) : is_valid_person_name p.name = true := by
  simp only [processDir1Captures, List.mem_filterMap] at h
  obtain ⟨g, -, hg⟩ := h
  split_ifs at hg
  all_goals
    first
      | exact Option.noConfusion hg
      | (obtain rfl := Option.some.inj hg
         try dsimp only at *
         try simp only [Bool.and_eq_true, decide_eq_true_eq] at *
         tauto)


theorem valid_of_mem_processCeo {p : Person} {caps : List String}
    (h : p ∈ processCeoCaptures caps) : is_valid_person_name p.name = true := by
  simp only [processCeoCaptures, List.mem_filterMap] at h
  obtain ⟨g, -, hg⟩ := h
  split_ifs at hg
  all_goals
    first
      | exact Option.noConfusion hg
      | (obtain rfl := Option.some.inj hg
         try dsimp only at *
         try simp only [Bool.and_eq_true, decide_eq_true_eq] at *
         tauto)


theorem valid_of_mem_processOfficer {p : Person} {caps : List (String × String)}
    (h : p ∈ processOfficerCaptures caps) :
    is_valid_person_name p.name = true := by
  simp only [processOfficerCaptures, List.mem_filterMap] at h
  obtain ⟨g, -, hg⟩ := h
  split_ifs at hg
  all_goals
    first
      | exact Option.noConfusion hg
      | (obtain rfl := Option.some.inj hg
         try dsimp only at *
         try simp only [Bool.and_eq_true, decide_eq_true_eq] at *
         tauto)


theorem valid_of_mem_processContact2 {p : Person} {caps : List (String × String)}
    (h : p ∈ processContact2Captures caps) :
    is_valid_person_name p.name = true := by
  simp only [processContact2Captures, List.mem_filterMap] at h
  obtain ⟨g, -, hg⟩ := h
  split_ifs at hg
  all_goals
    first
      | exact Option.noConfusion hg
      | (obtain rfl := Option.some.inj hg
         try dsimp only at *
         try simp only [Bool.and_eq_true, decide_eq_true_eq] at *
         tauto)


theorem valid_of_mem_processContact1 {p : Person} {caps : List String}
    (h : p ∈ processContact1Captures caps) :
    is_valid_person_name p.name = true := by
  simp only [processContact1Captures, List.mem_filterMap] at h
  obtain ⟨g, -, hg⟩ := h
  split_ifs at hg
  all_goals
    first
      | exact Option.noConfusion hg
      | (obtain rfl := Option.some.inj hg
         try dsimp only at *
         try simp only [Bool.and_eq_true, decide_eq_true_eq] at *
         tauto)


theorem mem_of_mem_dedupPeople {p : Person} :
    ∀ {l : List Person} {seen : List String}, p ∈ dedupPeople l seen → p ∈ l := by
  intro l
  induction l with
  | nil => intro seen h; cases h
  | cons q rest ih =>
      intro seen h
      simp only [dedupPeople] at h
      split_ifs at h with hs
      · exact List.mem_cons_of_mem q (ih h)
      · rcases List.mem_cons.mp h with h | h
        · exact h ▸ List.mem_cons_self q rest
        · exact List.mem_cons_of_mem q (ih h)

theorem valid_of_mem_allPeopleCandidates {p : Person} {c : PeopleCaptures}
    (h : p ∈ allPeopleCandidates c) : is_valid_person_name p.name = true := by
  simp only [allPeopleCandidates, List.mem_append] at h
  rcases h with ((((((h | h) | h) | h) | h) | h) | h)
  · exact valid_of_mem_processSig h
  · exact valid_of_mem_processDir2 h
  · exact valid_of_mem_processDir1 h
  · exact valid_of_mem_processCeo h
  · exact valid_of_mem_processOfficer h
  · exact valid_of_mem_processContact2 h
  · exact valid_of_mem_processContact1 h

/-- C9.  Every `Person` returned by the people extractor has a name
satisfying the name-validation predicate `_is_valid_person_name` (2–4
whitespace-separated tokens, each beginning with an uppercase letter and
mostly alphabetic, no run of 3 or more digits, no stop-list phrase):
each of the five pattern families appends a candidate only after that
exact predicate succeeds on the exact name it appends, and deduplication
only removes elements. -/
theorem extracted_person_names_valid (rawText htmlContent : String)
    (c : PeopleCaptures) (p : Person)
    (hp : p ∈ extract_people_from_filing_patterns rawText htmlContent c) :
    is_valid_person_name p.name = true := by
  unfold extract_people_from_filing_patterns at hp
  split_ifs at hp with h
  · cases hp
  · exact valid_of_mem_allPeopleCandidates (mem_of_mem_dedupPeople hp)

/-- Witness for C9 at a concrete input: a one-capture extraction returning
`Jane Anne Doe`, whose name the predicate indeed accepts. -/
theorem extracted_person_names_valid_witness :
    is_valid_person_name
      (Person.mk "Jane Anne Doe" "Authorised Signatory" "Signatory").name =
      true :=
  extracted_person_names_valid "x" ""
    { sig := ["Jane  Anne Doe"], dir2 := [], dir1 := [], ceo := [],
      officer := [], contact2 := [], contact1 := [] }
    (Person.mk "Jane Anne Doe" "Authorised Signatory" "Signatory")
    (by decide)

/-! ## `graph_builder.py`: event extraction

`extract_events_from_filing` (`graph_builder.py:631-702`) classifies one
event per filing from keywords in the body and uses four `re.search`
patterns for titles and dates.  Those four concrete patterns are
implemented below as leftmost-match scanners; the alternations involved
have disjoint branches, so Python's backtracking order reduces to the
ordered attempts coded here. -/

/-- Drop a literal off the front of `l`, or fail. -/
def dropLit : List Char → List Char → Option (List Char)
  | [], l => some l
  | _ :: _, [] => none
  | c :: cs, d :: ds => if c = d then dropLit cs ds else none

/-- Drop a literal off the front of `l` case-insensitively (ASCII). -/
def dropLitCI : List Char → List Char → Option (List Char)
  | [], l => some l
  | _ :: _, [] => none
  | c :: cs, d :: ds => if c.toLower = d.toLower then dropLitCI cs ds else none

/-- Require at least one whitespace character, then eat the whole run:
`\s+` against a following token that contains no whitespace. -/
def dropWs1 : List Char → Option (List Char)
  | c :: rest => if c.isWhitespace then some (rest.dropWhile Char.isWhitespace)
                 else none
  | [] => none

/-- Embeds `re.search(r"Q([1-4])\s*(\d{4})", content, re.IGNORECASE)` tried at one
position: the quarter digit capture and the year capture. -/
def matchQAt (l : List Char) : Option (Char × List Char) :=
  match l with
  | q :: d :: rest =>
      if (q = 'Q' || q = 'q') && ('1' ≤ d && d ≤ '4') then
        match rest.dropWhile Char.isWhitespace with
        | a :: b :: c :: e :: _ =>
            if a.isDigit && b.isDigit && c.isDigit && e.isDigit then
              some (d, [a, b, c, e])
            else none
        | _ => none
      else none
  | _ => none

/-- Leftmost match of the quarter/year pattern. -/
def searchQ : List Char → Option (Char × List Char)
  | [] => none
  | c :: rest =>
      match matchQAt (c :: rest) with
      | some r => some r
      | none => searchQ rest

/-- The capture class `[A-Za-z\s&\.]` of the merger/acquisition
patterns. -/
def inNameClass (c : Char) : Bool :=
  c.isAlpha || c.isWhitespace || c = '&' || c = '.'

/-- Embeds `re.search(r"([Mm]erger|[Cc]ombination)\s+(?:of|between)\s+([A-Z][A-Za-z\s&\.]+)", content)`
tried at one position: group 1 (the matched keyword) and group 2. -/
def matchMergerAt (l : List Char) : Option (List Char × List Char) :=
  (match l with
   | c :: rest =>
       if c = 'M' || c = 'm' then
         (dropLit "erger".data rest).map (fun r => (c :: "erger".data, r))
       else if c = 'C' || c = 'c' then
         (dropLit "ombination".data rest).map (fun r => (c :: "ombination".data, r))
       else none
   | [] => none).bind (fun (g1, r1) =>
    (dropWs1 r1).bind (fun r2 =>
      (match dropLit "of".data r2 with
       | some r => some r
       | none => dropLit "between".data r2).bind (fun r3 =>
        (dropWs1 r3).bind (fun r4 =>
          match r4 with
          | c :: rest =>
              let run := rest.takeWhile inNameClass
              if c.isUpper && !run.isEmpty then some (g1, c :: run) else none
          | [] => none))))

/-- Leftmost match of the merger pattern. -/
def searchMerger : List Char → Option (List Char × List Char)
  | [] => none
  | c :: rest =>
      match matchMergerAt (c :: rest) with
      | some r => some r
      | none => searchMerger rest

/-- The capture `([A-Z][A-Za-z\s&\.]+(?:PLC|Ltd|Inc|Corp|LLC)?)` under
`re.IGNORECASE`: a letter followed by a non-empty class run (the optional
suffix letters all lie inside the class, so the greedy run already
includes them). -/
def matchCompanyCapture (l : List Char) : Option (List Char) :=
  match l with
  | c :: rest =>
      let run := rest.takeWhile inNameClass
      if c.isAlpha && !run.isEmpty then some (c :: run) else none
  | [] => none

/-- Embeds `re.search(r"(?:acquired|acquisition)\s+(?:of|by)?\s*([A-Z][A-Za-z\s&\.]+(?:PLC|Ltd|Inc|Corp|LLC)?)", content, re.IGNORECASE)`
tried at one position. -/
def matchAcqAt (l : List Char) : Option (List Char) :=
  (match dropLitCI "acquired".data l with
   | some r => some r
   | none => dropLitCI "acquisition".data l).bind (fun r1 =>
    (dropWs1 r1).bind (fun r2 =>
      let attempt := fun (r : List Char) =>
        matchCompanyCapture (r.dropWhile Char.isWhitespace)
      match (dropLitCI "of".data r2).bind attempt with
      | some g => some g
      | none =>
          match (dropLitCI "by".data r2).bind attempt with
          | some g => some g
          | none => attempt r2))

/-- Leftmost match of the acquisition-name pattern. -/
def searchAcq : List Char → Option (List Char)
  | [] => none
  | c :: rest =>
      match matchAcqAt (c :: rest) with
      | some r => some r
      | none => searchAcq rest

/-- Embeds `\d{1,2}` followed by a `/` or `-` separator: greedy two digits first,
then one. -/
def matchD12Sep (l : List Char) : Option (List Char × List Char) :=
  match l with
  | a :: b :: c :: rest =>
      if a.isDigit && b.isDigit && (c = '/' || c = '-') then
        some ([a, b, c], rest)
      else if a.isDigit && (b = '/' || b = '-') then
        some ([a, b], c :: rest)
      else none
  | [a, b] =>
      if a.isDigit && (b = '/' || b = '-') then some ([a, b], []) else none
  | _ => none

/-- The date capture `(\d{1,2}[/\-]\d{1,2}[/\-]\d{2,4})`. -/
def matchDateCapture (l : List Char) : Option (List Char) :=
  (matchD12Sep l).bind (fun (p1, r1) =>
    (matchD12Sep r1).bind (fun (p2, r2) =>
      let run := (r2.takeWhile Char.isDigit).take 4
      if run.length ≥ 2 then some (p1 ++ p2 ++ run) else none))

/-- Embeds `re.search(r"(?:acquired|acquisition|completed)\s+(?:on|date)?\s*(\d{1,2}[/\-]\d{1,2}[/\-]\d{2,4})", content, re.IGNORECASE)`
tried at one position. -/
def matchAcqDateAt (l : List Char) : Option (List Char) :=
  (match dropLitCI "acquired".data l with
   | some r => some r
   | none =>
       match dropLitCI "acquisition".data l with
       | some r => some r
       | none => dropLitCI "completed".data l).bind (fun r1 =>
    (dropWs1 r1).bind (fun r2 =>
      let attempt := fun (r : List Char) =>
        matchDateCapture (r.dropWhile Char.isWhitespace)
      match (dropLitCI "on".data r2).bind attempt with
      | some g => some g
      | none =>
          match (dropLitCI "date".data r2).bind attempt with
          | some g => some g
          | none => attempt r2))

/-- Leftmost match of the acquisition-date pattern. -/
def searchAcqDate : List Char → Option (List Char)
  | [] => none
  | c :: rest =>
      match matchAcqDateAt (c :: rest) with
      | some r => some r
      | none => searchAcqDate rest

/-- A filing record as returned by `get_filing_data`
(`services/data_loader/data_loader.py:178-193`): header fields merged with
the body fields; any field the header did not yield is the empty
string. -/
structure FilingData where
  cik : String := ""
  company_name : String := ""
  sic_code : String := ""
  sic_description : String := ""
  fiscal_year_end : String := ""
  address_street1 : String := ""
  address_city : String := ""
  address_state : String := ""
  address_zip : String := ""
  phone : String := ""
  sec_file_number : String := ""
  accession_number : String := ""
  filing_date : String := ""
  raw_text : String := ""
  html_content : String := ""
  deriving DecidableEq, Repr

/-- An event dictionary as appended by `extract_events_from_filing`
(`graph_builder.py:692-699`). -/
structure EventRec where
  id : String
  event_type : String
  title : String
  event_date : String
  filing_id : String
  description : String
  deriving DecidableEq, Repr

/-- Embeds `GraphBuilder.extract_events_from_filing` (`graph_builder.py:631-702`).
Takes the builder's `processed_events` cache and returns the extracted
events together with the updated cache. -/
def extract_events_from_filing (d : FilingData)
    (processedEvents : List String) : List EventRec × List String :=
  let accession := d.accession_number
  let content := d.raw_text ++ d.html_content
  if accession = "" then ([], processedEvents)
  else
    let contentLower := pyLower content
    let etd : String × String × String :=
      if pyContains contentLower "quarterly" || pyContains contentLower "q1" ||
          pyContains contentLower "q2" then
        ("Financial Results",
         match searchQ content.data with
         | some (qd, yr) =>
             "Q" ++ String.mk [qd] ++ " " ++ String.mk yr ++ " Results"
         | none => "6-K Filing " ++ accession,
         d.filing_date)
      else if pyContains contentLower "merger" ||
          pyContains contentLower "combine" then
        ("Merger",
         match searchMerger content.data with
         | some (g1, g2) => String.mk g1 ++ " - " ++ String.mk g2
         | none => "6-K Filing " ++ accession,
         d.filing_date)
      else if pyContains contentLower "acquisition" ||
          pyContains contentLower "acquired" then
        ("Acquisition",
         match searchAcq content.data with
         | some g1 => "Acquisition of " ++ pyStrip (String.mk g1)
         | none => "Corporate Acquisition",
         match searchAcqDate content.data with
         | some dt => String.mk dt
         | none => d.filing_date)
      else if pyContains contentLower "restructuring" ||
          pyContains contentLower "legal structure" then
        ("Restructuring", "Corporate Restructuring", d.filing_date)
      else ("Filing", "6-K Filing " ++ accession, d.filing_date)
    let event_id := "event_" ++ accession ++ "_" ++ etd.1
    if processedEvents.contains event_id then ([], processedEvents)
    else
      ([{ id := event_id, event_type := etd.1, title := etd.2.1,
          event_date := etd.2.2, filing_id := accession,
          description := if content = "" then "" else pyTakeStr content 500 }],
       event_id :: processedEvents)

/-! ## `graph_builder.py`: graph writes and `process_filing`

The Neo4j connection is modelled as an always-succeeding sink: each
`conn.execute_query` is recorded as a `GraphOp` carrying exactly the
parameters the source binds into the Cypher query.  The builder's dedup
caches (`processed_*` sets) are modelled as lists. -/

/-- One parameterized Cypher write, with the property values the source
passes to `execute_query`. -/
inductive GraphOp where
  | companyUpsert (cik id name sic_code sic_description fiscal_year_end
      address_street1 address_city address_state address_zip phone
      sec_file_number : String)
  | sectorUpsert (sic_code id name description : String)
  | belongsToSector (cik sic_code : String)
  | personUpsert (id name title role_type : String)
  | worksAt (person_id company_cik title role_type : String)
  | eventUpsert (id event_type title event_date filing_id description : String)
  | hasEvent (company_cik event_id event_date filing_id : String)
  deriving DecidableEq, Repr

/-- Whether an op writes a `Person` node or a `WORKS_AT` edge. -/
def GraphOp.isPersonWrite : GraphOp → Bool
  | .personUpsert _ _ _ _ => true
  | .worksAt _ _ _ _ => true
  | _ => false

/-- Whether an op writes an `Event` node or a `HAS_EVENT` edge. -/
def GraphOp.isEventWrite : GraphOp → Bool
  | .eventUpsert _ _ _ _ _ _ => true
  | .hasEvent _ _ _ _ => true
  | _ => false

/-- The builder's dedup caches (`GraphBuilder.__init__`,
`graph_builder.py:24-27`).  Timing statistics are not modelled. -/
structure BuilderState where
  processedCompanies : List String := []
  processedPeople : List String := []
  processedEvents : List String := []
  processedSectors : List String := []
  deriving DecidableEq, Repr

/-- Embeds `GraphBuilder.create_company_node` (`graph_builder.py:41-89`). -/
def create_company_node (d : FilingData) (st : BuilderState) :
    Bool × BuilderState × List GraphOp :=
  if d.cik = "" then (false, st, [])
  else
    let cik := format_cik d.cik
    (true,
     { st with processedCompanies := cik :: st.processedCompanies },
     [.companyUpsert cik ("company_" ++ cik) (pyStrip d.company_name)
        d.sic_code d.sic_description d.fiscal_year_end d.address_street1
        d.address_city d.address_state d.address_zip d.phone
        d.sec_file_number])

/-- Embeds `GraphBuilder.create_sector_node` (`graph_builder.py:91-122`). -/
def create_sector_node (sic_code sic_description : String)
    (st : BuilderState) : Bool × BuilderState × List GraphOp :=
  if sic_code = "" then (false, st, [])
  else
    let sector_id := "sector_" ++ sic_code
    if st.processedSectors.contains sector_id then (true, st, [])
    else
      (true,
       { st with processedSectors := sector_id :: st.processedSectors },
       [.sectorUpsert sic_code sector_id
          (if sic_description ≠ "" then sic_description
           else "SIC " ++ sic_code)
          sic_description])

/-- Embeds `GraphBuilder.create_company_sector_relationship`
(`graph_builder.py:124-144`). -/
def create_company_sector_relationship (cik sic_code : String)
    (st : BuilderState) : Bool × BuilderState × List GraphOp :=
  if cik = "" || sic_code = "" then (false, st, [])
  else (true, st, [.belongsToSector (format_cik cik) sic_code])

/-- Embeds `GraphBuilder.create_person_node` (`graph_builder.py:431-463`).  Note:
the person id interpolates `company_cik` exactly as received — there is no
`format_cik` call in this function. -/
def create_person_node (p : Person) (company_cik : String)
    (st : BuilderState) : Bool × BuilderState × List GraphOp :=
  if p.name = "" then (false, st, [])
  else
    let name := pyStrip p.name
    let person_id := personNodeId p.name company_cik
    if st.processedPeople.contains person_id then (true, st, [])
    else
      (true,
       { st with processedPeople := person_id :: st.processedPeople },
       [.personUpsert person_id name p.title p.role_type])

/-- Embeds `GraphBuilder.create_works_at_relationship`
(`graph_builder.py:465-494`).  Here the CIK *is* normalized with
`format_cik` before the person id is rebuilt. -/
def create_works_at_relationship (person_name company_cik : String)
    (p : Person) (st : BuilderState) : Bool × BuilderState × List GraphOp :=
  if person_name = "" || company_cik = "" then (false, st, [])
  else
    (true, st,
     [.worksAt (worksAtPersonId person_name company_cik)
        (format_cik company_cik) p.title p.role_type])

/-- Embeds `GraphBuilder.create_event_node` (`graph_builder.py:704-733`). -/
def create_event_node (e : EventRec) (st : BuilderState) :
    Bool × BuilderState × List GraphOp :=
  if e.id = "" then (false, st, [])
  else
    (true, st,
     [.eventUpsert e.id e.event_type e.title e.event_date e.filing_id
        e.description])

/-- Embeds `GraphBuilder.create_has_event_relationship`
(`graph_builder.py:735-763`). -/
def create_has_event_relationship (company_cik event_id filing_date
    filing_id : String) (st : BuilderState) :
    Bool × BuilderState × List GraphOp :=
  if company_cik = "" || event_id = "" then (false, st, [])
  else
    (true, st,
     [.hasEvent (format_cik company_cik) event_id filing_date filing_id])

/-- The per-filing stats dictionary of `process_filing`
(`graph_builder.py:773-778`). -/
structure Stats where
  companies : Nat := 0
  people : Nat := 0
  events : Nat := 0
  relationships : Nat := 0
  deriving DecidableEq, Repr

/-- The people loop of `process_filing` (`graph_builder.py:813-821`): for
each extracted person, upsert the node and the `WORKS_AT` edge, counting
successes. -/
def processPeopleLoop (company_cik : String) :
    List Person → BuilderState → (Nat × Nat) × BuilderState × List GraphOp
  | [], st => ((0, 0), st, [])
  | p :: rest, st =>
      let (okNode, st1, ops1) := create_person_node p company_cik st
      let (okRel, st2, ops2) :=
        create_works_at_relationship p.name company_cik p st1
      let ((nPeople, nRels), st3, ops3) := processPeopleLoop company_cik rest st2
      (((if okNode then 1 else 0) + nPeople,
        (if okRel then 1 else 0) + nRels),
       st3, ops1 ++ ops2 ++ ops3)

/-- The events loop of `process_filing` (`graph_builder.py:826-836`). -/
def processEventsLoop (company_cik filing_date : String) :
    List EventRec → BuilderState → (Nat × Nat) × BuilderState × List GraphOp
  | [], st => ((0, 0), st, [])
  | e :: rest, st =>
      let (okNode, st1, ops1) := create_event_node e st
      let (okRel, st2, ops2) :=
        create_has_event_relationship company_cik e.id filing_date
          e.filing_id st1
      let ((nEvents, nRels), st3, ops3) :=
        processEventsLoop company_cik filing_date rest st2
      (((if okNode then 1 else 0) + nEvents,
        (if okRel then 1 else 0) + nRels),
       st3, ops1 ++ ops2 ++ ops3)

/-- Embeds `GraphBuilder.process_filing` (`graph_builder.py:765-848`) on an
already-loaded filing record.  `get_filing_data` (file I/O and header
parsing) is modelled by passing the resulting record `d` directly;
people-pattern regex matches are the oracle `caps`.  Every graph write
succeeds (the claims quantify over runs without database errors), so the
`except` arms of the source are never taken. -/
def process_filing (d : FilingData) (caps : PeopleCaptures)
    (st : BuilderState) : Stats × BuilderState × List GraphOp :=
  if d.cik = "" then ({}, st, [])
  else
    let company_cik := d.cik
    let (okCompany, st1, ops1) := create_company_node d st
    let (sectorRels, st2, ops2) :=
      if d.sic_code ≠ "" then
        let (okSector, stA, opsA) :=
          create_sector_node d.sic_code d.sic_description st1
        if okSector then
          let (okRel, stB, opsB) :=
            create_company_sector_relationship company_cik d.sic_code stA
          ((if okRel then 1 else 0), stB, opsA ++ opsB)
        else (0, stA, opsA)
      else (0, st1, [])
    let people := extract_people_from_filing_patterns d.raw_text
      d.html_content caps
    let ((nPeople, pRels), st3, ops3) := processPeopleLoop company_cik people st2
    let (events, processedEvents') :=
      extract_events_from_filing d st3.processedEvents
    let st3e := { st3 with processedEvents := processedEvents' }
    let ((nEvents, eRels), st4, ops4) :=
      processEventsLoop company_cik d.filing_date events st3e
    ({ companies := if okCompany then 1 else 0,
       people := nPeople,
       events := nEvents,
       relationships := sectorRels + pRels + eRels },
     st4, ops1 ++ ops2 ++ ops3 ++ ops4)

/-! ## `filing_downloader.py`: submissions fetch and 429 handling -/

/-- Outcome of one `requests.get` against the archive, as the `try` block
of `get_submission_json` distinguishes them
(`filing_downloader.py:161-177`). -/
inductive HttpResult where
  | ok (body : String)
  | timeout
  | httpError (status : Nat)
  | otherError
  deriving DecidableEq, Repr

/-- Embeds `get_submission_json` (`filing_downloader.py:143-177`), modelled over
the stream of responses the archive would return to its successive
requests; the result is paired with the number of HTTP requests issued.
A 429 sleeps 5 seconds and re-enters the whole function
(`return get_submission_json(cik, ...)`), consuming the next response;
the recursion carries no retry counter. An empty stream means the
environment has no further response to give and is reported as `none`
with no request made. -/
def get_submission_json : List HttpResult → Option String × Nat
  | [] => (none, 0)
  | r :: rest =>
      match r with
      | .ok body => (some body, 1)
      | .timeout => (none, 1)
      | .httpError status =>
          if status = 429 then
            let (res, n) := get_submission_json rest
            (res, n + 1)
          else (none, 1)
      | .otherError => (none, 1)

/-! ## `filing_downloader.py`: `download_filing` and the ledger -/

/-- A filesystem operation performed by the downloader.  `rename` is in
the vocabulary but, as the theorems below show, never emitted: the source
opens every final path directly for writing. -/
inductive FsOp where
  | mkdirp (path : String)
  | write (path content : String)
  | rename (src dst : String)
  deriving DecidableEq, Repr

/-- Whether an op is a rename. -/
def FsOp.isRename : FsOp → Bool
  | .rename _ _ => true
  | _ => false

/-- Whether `a` starts with `b`. -/
def strStartsWith (a b : String) : Bool :=
  b.data.isPrefixOf a.data

/-- Whether `a` ends with `b`. -/
def strEndsWith (a b : String) : Bool :=
  b.data.reverse.isPrefixOf a.data.reverse

/-- Python `";".join l`. -/
def joinSemicolon : List String → String
  | [] => ""
  | [s] => s
  | s :: rest => s ++ ";" ++ joinSemicolon rest

/-- The environment of one `download_filing` run: what the filesystem and
the archive answer at each step.  `indexResult` is the rewritten index
page (`str(soup)`) if the index GET and parse succeed; `txtLinkFound` is
the resolved "Complete submission text file" href if the page has one;
`txtResult` is the submission text if that GET succeeds; `exhibits` are
the `(filename, cleaned text)` pairs `extract_exhibits_all` derives from
the text file. -/
structure DownloadEnv where
  fsExists : String → Bool
  folderListing : List String
  indexResult : Option String
  txtLinkFound : Option String
  txtResult : Option String
  exhibits : List (String × String)

/-- Embeds `download_filing` (`filing_downloader.py:231-322`): returns the
`(html_path, txt_path, exhibit_paths)` triple (or `none` for the
`(None, None, [])` failure return), the number of HTTP requests issued
for this accession, and the filesystem trace. -/
def download_filing (downloadRoot company cik accession filingDate : String)
    (skipExisting : Bool) (env : DownloadEnv) :
    Option (String × String × List String) × Nat × List FsOp :=
  let year := pyTakeStr filingDate 4
  let folder := downloadRoot ++ "/" ++ company ++ "/" ++
    (year ++ "_" ++ company ++ "_" ++ cik) ++ "/" ++ accession
  let html_path := folder ++ "/filing.html"
  let txt_path := folder ++ "/" ++ accession ++ ".txt"
  let ops0 := [FsOp.mkdirp folder]
  if skipExisting && env.fsExists html_path && env.fsExists txt_path then
    let exhibitPaths :=
      (env.folderListing.filter (fun f =>
        strStartsWith f "EX-99" && strEndsWith f ".txt")).map
        (fun f => folder ++ "/" ++ f)
    (some (html_path, txt_path, exhibitPaths), 0, ops0)
  else
    match env.indexResult with
    | none => (none, 1, ops0)
    | some pageHtml =>
        let ops1 := ops0 ++ [FsOp.write html_path pageHtml]
        match env.txtLinkFound with
        | none => (some (html_path, txt_path, []), 1, ops1)
        | some _ =>
            match env.txtResult with
            | none => (none, 2, ops1)
            | some body =>
                let ops2 := ops1 ++ [FsOp.write txt_path body]
                let exOps := env.exhibits.map
                  (fun fe => FsOp.write (folder ++ "/" ++ fe.1) fe.2)
                let exPaths := env.exhibits.map (fun fe => folder ++ "/" ++ fe.1)
                (some (html_path, txt_path, exPaths), 2, ops2 ++ exOps)

/-- One row of the metadata ledger, with the fields `process_fpi_entry`
passes to `log_metadata_row` (`filing_downloader.py:411-419`). -/
structure LedgerRow where
  companyName : String
  cik : String
  date : String
  accession : String
  htmlFile : String
  txtFile : String
  exhibits : String
  deriving DecidableEq, Repr

/-- The per-filing body of the loop in `process_fpi_entry`
(`filing_downloader.py:399-419`): run `download_filing`, then append one
ledger row iff the returned `html_path` is non-`None`.  Progress-bar
bookkeeping is not modelled. -/
def process_fpi_filing (downloadRoot company cik accession dateStr : String)
    (skipExisting : Bool) (env : DownloadEnv) :
    List LedgerRow × Nat × List FsOp :=
  let (result, reqs, ops) :=
    download_filing downloadRoot company cik accession dateStr skipExisting env
  match result with
  | some (h, t, exs) =>
      ([{ companyName := pyReplaceChar company '_' ' ', cik := cik,
          date := dateStr, accession := accession, htmlFile := h,
          txtFile := if t ≠ "" then t else "",
          exhibits := joinSemicolon exs }], reqs, ops)
  | none => ([], reqs, ops)

/-! ## `filing_downloader.py`: the rate limiter (claim C5)

`RateLimiter.wait` (`filing_downloader.py:111-121`) runs under
`self.lock`, so concurrent calls execute in some serialization order; the
model is that serialized sequence.  Each completed call reads the clock
(`now`), sleeps `max(0, min_interval - (now - last))`, reads the clock
again (`now2`) and records it as `last_request_time`.  The only physical
assumption is the sleep contract: the second read is at least the first
read plus the slept duration. -/

/-- The sleep duration `wait` computes from the previous recorded
timestamp and the current clock reading. -/
def rlSleepTime (minInterval last now : ℚ) : ℚ :=
  if now - last < minInterval then minInterval - (now - last) else 0

/-- The recorded `last_request_time` values produced by a serialized
sequence of `wait` calls, each call contributing its pair of clock
readings `(now, now2)`: the call records `now2`. -/
def rlTimestamps : List (ℚ × ℚ) → List ℚ
  | [] => []
  | c :: rest => c.2 :: rlTimestamps rest

/-- The sleep contract along a serialized call sequence starting from
recorded timestamp `last`: in each call, the second clock reading is at
least the first plus the duration slept. -/
def WellTimed (minInterval : ℚ) : ℚ → List (ℚ × ℚ) → Prop
  | _, [] => True
  | last, c :: rest =>
      c.1 + rlSleepTime minInterval last c.1 ≤ c.2 ∧
      WellTimed minInterval c.2 rest

/-! ## `worker.py`: claim and finalization renames (claim C4) -/

/-- Code-point comparison of strings, as Python's `sorted` compares the
equal-directory `Path`s in `_get_next_job`. -/
def charListLe : List Char → List Char → Bool
  | [], _ => true
  | _ :: _, [] => false
  | a :: as, b :: bs => if a < b then true else if b < a then false else charListLe as bs

/-- Insertion step of `sortStrings`. -/
def insertSorted (s : String) : List String → List String
  | [] => [s]
  | t :: rest =>
      if charListLe s.data t.data then s :: t :: rest
      else t :: insertSorted s rest

/-- Embeds `sorted(...)` over file names. -/
def sortStrings : List String → List String
  | [] => []
  | s :: rest => insertSorted s (sortStrings rest)

/-- The queue directories, each holding job descriptor file names; the
directory containing a descriptor is its state. -/
structure QueueState where
  pending : List String := []
  processing : List String := []
  completed : List String := []
  failed : List String := []
  deriving DecidableEq, Repr

/-- Embeds `FilingWorker._get_next_job` (`worker.py:57-70`): sort the pending
descriptors, claim the first by renaming it into `processing/` under the
name `<worker_id>_<name>`; returns the claimed (processing) file name. -/
def get_next_job (workerId : String) (q : QueueState) :
    Option (String × QueueState) :=
  match sortStrings q.pending with
  | [] => none
  | jobName :: _ =>
      let processingName := workerId ++ "_" ++ jobName
      some (processingName,
        { q with pending := q.pending.erase jobName,
                 processing := processingName :: q.processing })

/-- Embeds `FilingWorker._mark_job_complete` (`worker.py:72-83`): rename the
processing descriptor into `completed/` or `failed/`, keeping
`job_file.name` — the file name is carried over unchanged. -/
def mark_job_complete (jobFileName : String) (success : Bool)
    (q : QueueState) : QueueState :=
  if success then
    { q with processing := q.processing.erase jobFileName,
             completed := jobFileName :: q.completed }
  else
    { q with processing := q.processing.erase jobFileName,
             failed := jobFileName :: q.failed }

/-! ## `coordinator.py` and `process_filings`: the `limit` flag (claim C10) -/

/-- Python truthiness of an `Optional[int]`: `None` and `0` are falsy. -/
def pyTruthyInt : Option Int → Bool
  | none => false
  | some n => n ≠ 0

/-- Python slicing `l[:n]`, including the negative-index case. -/
def pySliceTo (l : List α) (n : Int) : List α :=
  if 0 ≤ n then l.take n.toNat else l.take (l.length - (-n).toNat)

/-- The `if limit: filings = filings[:limit]` guard shared by
`GraphBuilder.process_filings` (`graph_builder.py:873-874`) and
`FilingCoordinator.create_jobs` (`coordinator.py:54-55`). -/
def applyLimit (filings : List α) (limit : Option Int) : List α :=
  if pyTruthyInt limit then pySliceTo filings (limit.getD 0) else filings

/-- A filing path, with the `Path` accessors `create_jobs` uses. -/
structure FilingPath where
  path : String
  name : String
  stem : String
  deriving DecidableEq, Repr

/-- A job descriptor as written by `create_jobs` (`coordinator.py:58-68`).
The `created_at` wall-clock timestamp is not modelled. -/
structure JobDesc where
  fileName : String
  filing_path : String
  filing_name : String
  use_ai_extraction : Bool
  deriving DecidableEq, Repr

/-- Embeds `FilingCoordinator.create_jobs` (`coordinator.py:40-73`): enumerate
filings (already filtered by year via `list_filings`), truncate by the
truthy limit, and write one descriptor into `pending/` per filing; the
returned count is the number of descriptors written. -/
def create_jobs (filings : List FilingPath) (limit : Option Int)
    (useAiExtraction : Bool) : List JobDesc × Nat :=
  let selected := applyLimit filings limit
  let jobs := selected.map (fun f =>
    { fileName := f.stem ++ ".json", filing_path := f.path,
      filing_name := f.name, use_ai_extraction := useAiExtraction })
  (jobs, jobs.length)

/-- The loop of `GraphBuilder.process_filings` (`graph_builder.py:886-899`):
process each filing, accumulating per-filing stats and counting
`filings_processed` once per iteration. -/
def processFilingsLoop :
    List (FilingData × PeopleCaptures) → BuilderState →
      (Stats × Nat) × BuilderState × List GraphOp
  | [], st => (({}, 0), st, [])
  | (d, caps) :: rest, st =>
      let (s, st1, ops1) := process_filing d caps st
      let ((acc, n), st2, ops2) := processFilingsLoop rest st1
      (({ companies := s.companies + acc.companies,
          people := s.people + acc.people,
          events := s.events + acc.events,
          relationships := s.relationships + acc.relationships },
        n + 1), st2, ops1 ++ ops2)

/-- Embeds `GraphBuilder.process_filings` (`graph_builder.py:850-907`): the
filings enumerated by `list_filings(year)` (with the regex-capture oracle
for each) are truncated by the truthy `limit` and processed in order.
Wall-clock timing fields are not modelled. -/
def process_filings (records : List (FilingData × PeopleCaptures))
    (limit : Option Int) (st : BuilderState) :
    (Stats × Nat) × BuilderState × List GraphOp :=
  processFilingsLoop (applyLimit records limit) st

end Orion

namespace Orion

/-! ## Sanity checks on the primitives -/

example : pyZfill "123" 10 = "0000000123" := by decide

example : pyZfill "1234567890123" 10 = "1234567890123" := by decide

example : pyLower "John Smith" = "john smith" := by decide

example : pySplitWs "  Jane  A. Doe " = ["Jane", "A.", "Doe"] := by decide

example : hasDigitRun3 "ab123c".data = true := by decide

example : hasDigitRun3 "a1b2c3".data = false := by decide

example : personNodeId "John Smith" "123" = "person_john_smith_123" := by decide

example : worksAtPersonId "John Smith" "123" = "person_john_smith_0000000123" := by
  decide

example : is_valid_person_name "John Smith" = true := by decide

example : is_valid_person_name "John" = false := by decide

example : is_valid_person_name "Acme Ltd" = false := by decide

example : is_valid_person_name "Agent 007123" = false := by decide

example : is_valid_title "Chief Executive Officer" = true := by decide

example : is_valid_title "Q3" = false := by decide

example : classify_role "Senior Vice President and Chief Financial Officer" =
    "Officer" := by decide

example :
    extract_people_from_filing_patterns "x" ""
      { sig := ["Jane  Anne Doe"], dir2 := [], dir1 := [], ceo := [],
        officer := [], contact2 := [], contact1 := [] } =
      [⟨"Jane Anne Doe", "Authorised Signatory", "Signatory"⟩] := by decide

-- A middle initial such as "A." strips to a single letter, so the
-- validator's `len(word_clean) < 2` check rejects it.
example : is_valid_person_name "Jane A. Doe" = false := by decide

example :
    extract_people_from_filing_patterns "" ""
      { sig := ["Jane A. Doe"], dir2 := [], dir1 := [], ceo := [],
        officer := [], contact2 := [], contact1 := [] } = [] := by decide

end Orion

namespace Orion

/-! ## Claim C1: CIK normalization in person ids -/

/-- C1.  The claim says every persisted CIK is 10-digit zero-padded and
that `create_person_node` and `create_works_at_relationship` compute the
same person id.  Evaluating the two functions on the same person
(`John Smith`) and the same 3-digit company CIK `123`: the `Person` node
is persisted under id `person_john_smith_123` (raw CIK embedded), while
the `WORKS_AT` upsert looks the person up under
`person_john_smith_0000000123` — the two ids differ, so the claim fails on
the code: `create_person_node` never calls `format_cik`. -/
theorem person_node_id_cik_not_normalized :
    create_person_node ⟨"John Smith", "Authorised Signatory", "Signatory"⟩
        "123" {} =
      (true,
       { processedPeople := ["person_john_smith_123"] },
       [.personUpsert "person_john_smith_123" "John Smith"
          "Authorised Signatory" "Signatory"]) ∧
    create_works_at_relationship "John Smith" "123"
        ⟨"John Smith", "Authorised Signatory", "Signatory"⟩ {} =
      (true, {},
       [.worksAt "person_john_smith_0000000123" "0000000123"
          "Authorised Signatory" "Signatory"]) ∧
    personNodeId "John Smith" "123" ≠ worksAtPersonId "John Smith" "123" := by
  refine ⟨by decide, by decide, by decide⟩

/-! ## Claim C2: event classification for quarterly bodies -/

/-- C2.  The claim says any body containing `q1`…`q4` (or
`quarterly`) yields a `Financial Results` event, with title
`Q<n> <YYYY> Results` when the body matches that shape.  On the body
`Q3 2009 Results` (which contains `q3` case-insensitively and matches
`Q<n> <YYYY>` — the second conjunct shows the in-branch title regex would
have found it), the code classifies the event as plain `Filing` with the
default title: the keyword test at `graph_builder.py:648` checks only
`quarterly`, `q1` and `q2`, never `q3` or `q4`. -/
theorem q3_body_classified_as_plain_filing :
    extract_events_from_filing
        { cik := "123", accession_number := "acc1",
          raw_text := "Q3 2009 Results" } [] =
      ([{ id := "event_acc1_Filing", event_type := "Filing",
          title := "6-K Filing acc1", event_date := "",
          filing_id := "acc1", description := "Q3 2009 Results" }],
       ["event_acc1_Filing"]) ∧
    searchQ ("Q3 2009 Results").data = some ('3', "2009".data) := by
  refine ⟨by decide, by decide⟩

/-- The `q1`/`q2` half of the keyword test does fire: a body containing
`Q2 2010` is classified `Financial Results` with the captured title. -/
theorem q2_body_classified_as_financial_results :
    extract_events_from_filing
        { cik := "123", accession_number := "acc2",
          raw_text := "Q2 2010 interim report" } [] =
      ([{ id := "event_acc2_Financial Results",
          event_type := "Financial Results", title := "Q2 2010 Results",
          event_date := "", filing_id := "acc2",
          description := "Q2 2010 interim report" }],
       ["event_acc2_Financial Results"]) := by decide

/-! ## Claim C3: 429 handling in `get_submission_json` -/

/-- C3.  The claim says a 429 is retried exactly once and a second 429
skips the unit with no further retries.  Feeding the code a response
stream of three 429s followed by a success: it issues **four** HTTP
requests and returns the body — after the retry's 429 it does not skip
but keeps re-entering itself (`filing_downloader.py:172` recurses with no
retry counter, despite its own `# Retry once` comment). -/
theorem rate_limited_retry_unbounded :
    get_submission_json
        [.httpError 429, .httpError 429, .httpError 429, .ok "submissions"] =
      (some "submissions", 4) := by decide

/-! ## Claim C4: descriptor names through claim and finalization -/

/-- C4 counterexample.  A worker `w1` claims the pending descriptor
`0000950123-09-012345.json` and finalizes it successfully: the descriptor
lands in `completed/` as `w1_0000950123-09-012345.json`, not as
`0000950123-09-012345.json` — `_mark_job_complete` reuses
`job_file.name`, which still carries the `<worker_id>_` prefix acquired at
claim time. -/
theorem completed_descriptor_keeps_worker_prefix :
    (match get_next_job "w1" { pending := ["0000950123-09-012345.json"] } with
     | some (claimed, q1) => (mark_job_complete claimed true q1).completed
     | none => []) = ["w1_0000950123-09-012345.json"] ∧
    ("w1_0000950123-09-012345.json" : String) ≠ "0000950123-09-012345.json" := by
  refine ⟨by decide, by decide⟩

/-- C4 amended.  A claimed job `pending/<name>.json` is renamed to
`processing/<worker_id>_<name>.json`, and finalization renames that file
to `completed/<worker_id>_<name>.json` on success or
`failed/<worker_id>_<name>.json` on failure: the `<worker_id>_` prefix is
acquired at claim time and *kept* in the terminal directory. -/
theorem finalize_keeps_claimed_name (workerId name : String) (success : Bool) :
    ∃ q1, get_next_job workerId { pending := [name] } =
        some (workerId ++ "_" ++ name, q1) ∧
      q1.pending = [] ∧ q1.processing = [workerId ++ "_" ++ name] ∧
      mark_job_complete (workerId ++ "_" ++ name) success q1 =
        { pending := [],
          completed := if success then [workerId ++ "_" ++ name] else [],
          failed := if success then [] else [workerId ++ "_" ++ name] } := by
  refine ⟨{ pending := [name].erase name,
            processing := [workerId ++ "_" ++ name] }, rfl, by simp, rfl, ?_⟩
  cases success <;> simp [mark_job_complete]

/-! ## Claim C10: `limit=0` is treated as no limit -/

theorem processFilingsLoop_count (l : List (FilingData × PeopleCaptures)) :
    ∀ st, (processFilingsLoop l st).1.2 = l.length := by
  induction l with
  | nil => intro st; rfl
  | cons r rest ih =>
      intro st
      obtain ⟨d, caps⟩ := r
      simp only [processFilingsLoop]
      rcases h1 : process_filing d caps st with ⟨s, st1, ops1⟩
      rcases h2 : processFilingsLoop rest st1 with ⟨⟨acc, n⟩, st2, ops2⟩
      have hn := ih st1
      rw [h2] at hn
      simp only [List.length_cons]
      simp at hn
      simp [hn]

/-- C10.  `limit=0` is falsy in Python, so the
`if limit: filings = filings[:limit]` guard in both
`GraphBuilder.process_filings` and `FilingCoordinator.create_jobs` skips
the truncation: every listed filing is processed
(`filings_processed = length`), and one job descriptor is created per
listed filing. -/
theorem limit_zero_means_no_limit :
    (∀ (records : List (FilingData × PeopleCaptures)) (st : BuilderState),
      process_filings records (some 0) st = processFilingsLoop records st ∧
      (process_filings records (some 0) st).1.2 = records.length) ∧
    (∀ (filings : List FilingPath) (ai : Bool),
      (create_jobs filings (some 0) ai).2 = filings.length ∧
      (create_jobs filings (some 0) ai).1.length = filings.length) := by
  constructor
  · intro records st
    have hsel : applyLimit records (some 0) = records := by
      simp [applyLimit, pyTruthyInt]
    constructor
    · simp [process_filings, hsel]
    · simp [process_filings, hsel, processFilingsLoop_count]
  · intro filings ai
    have hsel : applyLimit filings (some 0) = filings := by
      simp [applyLimit, pyTruthyInt]
    constructor <;> simp [create_jobs, hsel]

end Orion

namespace Orion

/-! ## Claim C7: skip-existing short-circuit -/

/-- C7.  With skip-existing on and both `filing.html` and
`<accession>.txt` present in the filing's target folder, `download_filing`
returns success immediately — zero HTTP requests are issued for the
accession — and the per-filing body of `process_fpi_entry` still appends
exactly one metadata ledger row (the `if html_path:` guard sees the
returned path). -/
theorem skip_existing_short_circuit
    (root company cik accession date : String) (env : DownloadEnv)
    (hhtml : env.fsExists (root ++ "/" ++ company ++ "/" ++
      (pyTakeStr date 4 ++ "_" ++ company ++ "_" ++ cik) ++ "/" ++
      accession ++ "/filing.html") = true)
    (htxt : env.fsExists (root ++ "/" ++ company ++ "/" ++
      (pyTakeStr date 4 ++ "_" ++ company ++ "_" ++ cik) ++ "/" ++
      accession ++ "/" ++ accession ++ ".txt") = true) :
    (download_filing root company cik accession date true env).1.isSome =
        true ∧
    (download_filing root company cik accession date true env).2.1 = 0 ∧
    (process_fpi_filing root company cik accession date true env).1.length =
        1 ∧
    (process_fpi_filing root company cik accession date true env).2.1 = 0 := by
  unfold process_fpi_filing download_filing
  simp [hhtml, htxt]

/-- Witness for C7 at a concrete input: every file reported present. -/
theorem skip_existing_short_circuit_witness :
    (download_filing "/data/edgar_filings" "ACME" "123" "0001-23-000001"
        "2009-05-01" true
        { fsExists := fun _ => true, folderListing := ["EX-99.1.txt"],
          indexResult := none, txtLinkFound := none, txtResult := none,
          exhibits := [] }).1.isSome = true ∧
    (download_filing "/data/edgar_filings" "ACME" "123" "0001-23-000001"
        "2009-05-01" true
        { fsExists := fun _ => true, folderListing := ["EX-99.1.txt"],
          indexResult := none, txtLinkFound := none, txtResult := none,
          exhibits := [] }).2.1 = 0 ∧
    (process_fpi_filing "/data/edgar_filings" "ACME" "123" "0001-23-000001"
        "2009-05-01" true
        { fsExists := fun _ => true, folderListing := ["EX-99.1.txt"],
          indexResult := none, txtLinkFound := none, txtResult := none,
          exhibits := [] }).1.length = 1 ∧
    (process_fpi_filing "/data/edgar_filings" "ACME" "123" "0001-23-000001"
        "2009-05-01" true
        { fsExists := fun _ => true, folderListing := ["EX-99.1.txt"],
          indexResult := none, txtLinkFound := none, txtResult := none,
          exhibits := [] }).2.1 = 0 :=
  skip_existing_short_circuit "/data/edgar_filings" "ACME" "123"
    "0001-23-000001" "2009-05-01"
    { fsExists := fun _ => true, folderListing := ["EX-99.1.txt"],
      indexResult := none, txtLinkFound := none, txtResult := none,
      exhibits := [] } rfl rfl

/-! ## Claim C6: no temp-path staging in `download_filing` -/

/-- C6 counterexample.  A failed download leaves a readable file at
its final path: with the index GET succeeding and the text GET failing,
the run fails (`(None, None, [])`) yet the trace shows `filing.html` was
written directly at its final path — no temporary path, no rename. -/
theorem download_direct_write_counterexample :
    download_filing "/data" "ACME" "123" "0001-23-000001" "2009-05-01" false
        { fsExists := fun _ => false, folderListing := [],
          indexResult := some "<html>index</html>",
          txtLinkFound := some "https://www.sec.gov/x.txt",
          txtResult := none, exhibits := [] } =
      (none, 2,
       [FsOp.mkdirp "/data/ACME/2009_ACME_123/0001-23-000001",
        FsOp.write "/data/ACME/2009_ACME_123/0001-23-000001/filing.html"
          "<html>index</html>"]) := by decide

/-- C6 amended.  `download_filing` never stages to a temporary path:
its filesystem trace contains no rename whatsoever (for every input and
environment), and when the index GET succeeds but the text GET fails the
run returns failure with `filing.html` already written at its final
path — a download that fails mid-way leaves that file readable. -/
theorem download_filing_no_staging :
    (∀ (root company cik accession date : String) (skip : Bool)
      (env : DownloadEnv),
      ((download_filing root company cik accession date skip env).2.2.all
        (fun op => !op.isRename)) = true) ∧
    (∀ (root company cik accession date page link : String)
      (env : DownloadEnv),
      env.indexResult = some page → env.txtLinkFound = some link →
      env.txtResult = none →
      (download_filing root company cik accession date false env).1 = none ∧
      FsOp.write (root ++ "/" ++ company ++ "/" ++
          (pyTakeStr date 4 ++ "_" ++ company ++ "_" ++ cik) ++ "/" ++
          accession ++ "/filing.html") page ∈
        (download_filing root company cik accession date false env).2.2) := by
  constructor
  · intro root company cik accession date skip env
    unfold download_filing
    dsimp only
    split_ifs
    · simp [FsOp.isRename]
    · cases hidx : env.indexResult with
      | none => simp [FsOp.isRename]
      | some page =>
          cases hlink : env.txtLinkFound with
          | none => simp [FsOp.isRename]
          | some link =>
              cases htxt : env.txtResult with
              | none => simp [FsOp.isRename]
              | some body =>
                  simp [FsOp.isRename, List.all_eq_true, List.mem_map]
                  rintro op fn tx - rfl
                  rfl
  · intro root company cik accession date page link env hidx hlink htxt
    unfold download_filing
    simp [hidx, hlink, htxt]

/-- Witness for C6 at a concrete input: both conjuncts applied to the
failing-text-fetch environment. -/
theorem download_filing_no_staging_witness :
    ((download_filing "/d" "A" "7" "acc-1" "2010-01-02" false
        { fsExists := fun _ => false, folderListing := [],
          indexResult := some "page", txtLinkFound := some "L",
          txtResult := none, exhibits := [] }).2.2.all
      (fun op => !op.isRename)) = true ∧
    (download_filing "/d" "A" "7" "acc-1" "2010-01-02" false
        { fsExists := fun _ => false, folderListing := [],
          indexResult := some "page", txtLinkFound := some "L",
          txtResult := none, exhibits := [] }).1 = none :=
  ⟨download_filing_no_staging.1 "/d" "A" "7" "acc-1" "2010-01-02" false
    { fsExists := fun _ => false, folderListing := [],
      indexResult := some "page", txtLinkFound := some "L",
      txtResult := none, exhibits := [] },
   (download_filing_no_staging.2 "/d" "A" "7" "acc-1" "2010-01-02" "page" "L"
    { fsExists := fun _ => false, folderListing := [],
      indexResult := some "page", txtLinkFound := some "L",
      txtResult := none, exhibits := [] } rfl rfl rfl).1⟩

end Orion

namespace Orion

/-! ## Claim C5: rate-limiter dispatch spacing -/

/-- One `wait` call advances the recorded timestamp by at least the
minimum interval: whatever the first clock reading `now` was, the second
reading `now2` (which becomes the new `last_request_time`) is at least
`last + minInterval`, given only the sleep contract. -/
theorem rl_step (minInterval last now now2 : ℚ)
    (h : now + rlSleepTime minInterval last now ≤ now2) :
    last + minInterval ≤ now2 := by
  unfold rlSleepTime at h
  split_ifs at h with hc
  · linarith
  · linarith

/-- The recorded timestamps of a serialized, well-timed call sequence form
a chain spaced by the minimum interval. -/
theorem rl_chain (minInterval : ℚ) :
    ∀ (calls : List (ℚ × ℚ)) (last : ℚ), WellTimed minInterval last calls →
      List.Chain (fun a b => a + minInterval ≤ b) last (rlTimestamps calls)
  | [], _, _ => List.Chain.nil
  | c :: rest, last, h => by
      obtain ⟨h1, h2⟩ := h
      exact List.Chain.cons (rl_step minInterval last c.1 c.2 h1)
        (rl_chain minInterval rest c.2 h2)

/-- Along a chain spaced by `I`, elements `k` apart are at least `k * I`
apart. -/
theorem chain_get_spacing (I : ℚ) (ts : List ℚ)
    (h : List.Chain' (fun a b => a + I ≤ b) ts) :
    ∀ (i k : ℕ) (hik : i + k < ts.length),
      ts.get ⟨i, by omega⟩ + k * I ≤ ts.get ⟨i + k, hik⟩ := by
  intro i k
  induction k with
  | zero => intro hik; simp
  | succ k ih =>
      intro hik
      have hk : i + k < ts.length := by omega
      have step := List.chain'_iff_get.mp h (i + k) (by omega)
      have prev := ih hk
      have : (((k : ℚ) + 1) * I) = (k : ℚ) * I + I := by ring
      push_cast
      rw [this]
      have : ts.get ⟨i + k + 1, by omega⟩ ≥ ts.get ⟨i + k, hk⟩ + I := step
      push_cast at prev
      calc ts.get ⟨i, by omega⟩ + ((k : ℚ) * I + I)
          = (ts.get ⟨i, by omega⟩ + (k : ℚ) * I) + I := by ring
        _ ≤ ts.get ⟨i + k, hk⟩ + I := by linarith
        _ ≤ ts.get ⟨i + (k + 1), by omega⟩ := by
            have h' : i + (k + 1) = i + k + 1 := by omega
            simp only [h']
            linarith

/-- C5.  Under the mutex, concurrent `wait` calls execute in some
serialization order; along that order, with each call's two clock
readings satisfying the sleep contract (`WellTimed`), consecutive
recorded dispatch timestamps are at least `1/maxRate` apart (100 ms at
the default 10 requests/second); more generally dispatches `k` apart in
sequence are at least `k/maxRate` apart, and at the default rate any
dispatch and the 10th one after it are at least 1 second apart — hence at
most 10 dispatches fall in any half-open 1-second window. -/
theorem rate_limiter_spacing (maxRate : ℚ) (last : ℚ)
    (calls : List (ℚ × ℚ)) (hw : WellTimed (1 / maxRate) last calls) :
    List.Chain (fun a b => a + 1 / maxRate ≤ b) last (rlTimestamps calls) ∧
    (∀ (i k : ℕ) (hik : i + k < (rlTimestamps calls).length),
      (rlTimestamps calls).get ⟨i, by omega⟩ + k * (1 / maxRate) ≤
        (rlTimestamps calls).get ⟨i + k, hik⟩) ∧
    (maxRate = 10 →
      ∀ (i : ℕ) (h10 : i + 10 < (rlTimestamps calls).length),
        (rlTimestamps calls).get ⟨i, by omega⟩ + 1 ≤
          (rlTimestamps calls).get ⟨i + 10, h10⟩) := by
  have hchain := rl_chain (1 / maxRate) calls last hw
  have hchain' : List.Chain' (fun a b => a + 1 / maxRate ≤ b)
      (rlTimestamps calls) :=
    List.Chain'.tail (l := last :: rlTimestamps calls) hchain
  refine ⟨hchain, chain_get_spacing _ _ hchain', ?_⟩
  intro hrate i h10
  have := chain_get_spacing _ _ hchain' i 10 h10
  rw [hrate] at this
  norm_num at this
  exact this

/-- Witness for C5: two calls, each sleeping exactly as the contract
requires (`maxRate = 10`, timestamps recorded at 1/10 and 1/5 seconds). -/
theorem rate_limiter_spacing_witness :
    List.Chain (fun a b => a + 1 / (10 : ℚ) ≤ b) 0
      (rlTimestamps [((1 : ℚ)/20, 1/10), ((3 : ℚ)/25, 1/5)]) :=
  (rate_limiter_spacing 10 0 [((1 : ℚ)/20, 1/10), ((3 : ℚ)/25, 1/5)]
    (by norm_num [WellTimed, rlSleepTime])).1

end Orion

namespace Orion

/-! ## Claim C8: processing a filing with an empty body -/

/-- C8 counterexample.  A filing record with an empty body but a CIK
and an accession number in the header: `process_filing` returns
`companies=1, people=0` — but also `events=1, relationships=1`, because
`extract_events_from_filing` always emits one default `Filing` event when
the accession is present, even for an empty body.  The claim's "no Event
writes and stats zero except companies" fails. -/
theorem empty_body_stats_counterexample :
    (process_filing { cik := "123", accession_number := "0001-23-000001" }
        { sig := [], dir2 := [], dir1 := [], ceo := [], officer := [],
          contact2 := [], contact1 := [] } {}).1 =
      { companies := 1, people := 0, events := 1, relationships := 1 } := by
  decide

theorem event_id_ne_empty (acc : String) :
    ("event_" ++ acc ++ "_" ++ "Filing") ≠ "" := by
  intro h
  rw [String.ext_iff] at h
  simp only [String.data_append, List.append_eq_nil] at h
  exact absurd h.1.1.1 (by decide)

/-- Evaluating `extract_events_from_filing` on an empty body with a fresh cache:
nothing if the accession is empty, otherwise the single default `Filing`
event. -/
theorem extract_events_empty_content (d : FilingData)
    (hraw : d.raw_text = "") (hhtml : d.html_content = "") :
    extract_events_from_filing d [] =
      if d.accession_number = "" then ([], [])
      else
        ([{ id := "event_" ++ d.accession_number ++ "_" ++ "Filing",
            event_type := "Filing",
            title := "6-K Filing " ++ d.accession_number,
            event_date := d.filing_date,
            filing_id := d.accession_number, description := "" }],
         ["event_" ++ d.accession_number ++ "_" ++ "Filing"]) := by
  have c1 : pyContains (pyLower "") "quarterly" = false := by decide
  have c2 : pyContains (pyLower "") "q1" = false := by decide
  have c3 : pyContains (pyLower "") "q2" = false := by decide
  have c4 : pyContains (pyLower "") "merger" = false := by decide
  have c5 : pyContains (pyLower "") "combine" = false := by decide
  have c6 : pyContains (pyLower "") "acquisition" = false := by decide
  have c7 : pyContains (pyLower "") "acquired" = false := by decide
  have c8 : pyContains (pyLower "") "restructuring" = false := by decide
  have c9 : pyContains (pyLower "") "legal structure" = false := by decide
  have cd : (("" : String) ++ "") = "" := rfl
  by_cases hacc : d.accession_number = ""
  · simp [extract_events_from_filing, hacc]
  · simp [extract_events_from_filing, hacc, hraw, hhtml, c1, c2, c3, c4, c5,
      c6, c7, c8, c9, cd]

/-- C8 amended.  For a filing record whose body is empty but whose
header yields a CIK, `process_filing` upserts the Company node and
performs no Person writes; `events` and the corresponding `HAS_EVENT`
relationship are 0 only when the header yields no accession number —
otherwise one default `Filing` event is written — and a present SIC code
likewise contributes one `BELONGS_TO_SECTOR` relationship.  Stats are
zero except `companies=1` exactly when both the accession number and the
SIC code are absent. -/
theorem empty_body_filing_behavior (d : FilingData) (caps : PeopleCaptures)
    (hraw : d.raw_text = "") (hhtml : d.html_content = "") (hcik : d.cik ≠ "") :
    (process_filing d caps {}).1 =
      { companies := 1, people := 0,
        events := if d.accession_number = "" then 0 else 1,
        relationships := (if d.sic_code = "" then 0 else 1) +
          (if d.accession_number = "" then 0 else 1) } ∧
    ((process_filing d caps {}).2.2.all (fun op => !op.isPersonWrite)) =
        true ∧
    (d.accession_number = "" →
      ((process_filing d caps {}).2.2.all (fun op => !op.isEventWrite)) =
        true) := by
  have hpeople : extract_people_from_filing_patterns d.raw_text
      d.html_content caps = [] := by
    rw [hraw, hhtml]; rfl
  have hev := extract_events_empty_content d hraw hhtml
  have hid := event_id_ne_empty d.accession_number
  by_cases hsic : d.sic_code = "" <;> by_cases hacc : d.accession_number = "" <;>
    simp [process_filing, create_company_node, create_sector_node,
      create_company_sector_relationship, processPeopleLoop,
      processEventsLoop, create_event_node, create_has_event_relationship,
      hpeople, hev, hid, hcik, hsic, hacc, GraphOp.isPersonWrite,
      GraphOp.isEventWrite]

/-- Witness for C8 at a concrete input: empty body, CIK, SIC code and
accession number all present. -/
theorem empty_body_filing_behavior_witness :
    (process_filing
      { cik := "9", sic_code := "6029", accession_number := "acc" }
      { sig := [], dir2 := [], dir1 := [], ceo := [], officer := [],
        contact2 := [], contact1 := [] } {}).1 =
      { companies := 1, people := 0,
        events := if ("acc" : String) = "" then 0 else 1,
        relationships := (if ("6029" : String) = "" then 0 else 1) +
          (if ("acc" : String) = "" then 0 else 1) } :=
  (empty_body_filing_behavior
    { cik := "9", sic_code := "6029", accession_number := "acc" }
    { sig := [], dir2 := [], dir1 := [], ceo := [], officer := [],
      contact2 := [], contact1 := [] }
    rfl rfl (by decide)).1

end Orion
